import Mathlib

/-!
Verification of the synchronization engine of `github_backup.py`.

The development shallowly embeds the core functions of the source file:
`run_git_command` (bounded retry with exponential backoff around one git
invocation), `backup_repository` (clone / update / destructive recovery per
repository) and the aggregation loop of `main` (per-repository results folded
into a run summary).  External effects (child processes, sleeps, directory
deletion) are recorded as an explicit event trace, and the outcomes of the
external git processes are supplied by oracles (`Nat → AttemptResult`), one
per command, indexed by the attempt number.
-/

/-- Result of one `subprocess.run` of a git command, as observed by
`run_git_command`: normal completion (`ok stdout`), a
`subprocess.CalledProcessError` carrying the captured stderr (`err stderr`),
or any other exception (`exn msg`, Python's `except Exception` branch). -/
inductive AttemptResult where
  | ok (stdout : String)
  | err (stderr : String)
  | exn (msg : String)
deriving DecidableEq, Repr

/-- Externally visible events of the engine: spawning a child process with a
given argument vector (`subprocess.run`), sleeping (`time.sleep`), and
best-effort directory deletion (`shutil.rmtree`). -/
inductive Ev where
  | spawn (cmd : List String)
  | wait (seconds : Nat)
  | rmtree (path : String)
deriving DecidableEq, Repr

/-- Number of child processes spawned in a trace. -/
def spawnCount (evs : List Ev) : Nat :=
  evs.countP fun e => match e with | .spawn _ => true | _ => false

/-- The sleep durations of a trace, in order. -/
def waitsOf (evs : List Ev) : List Nat :=
  evs.filterMap fun e => match e with | .wait d => some d | _ => none

/-- Whether a trace contains a directory deletion. -/
def hasRmtree (evs : List Ev) : Bool :=
  evs.any fun e => match e with | .rmtree _ => true | _ => false

/-- Argument vector of the first process spawned in a trace, if any. -/
def firstSpawn : List Ev → Option (List String)
  | [] => none
  | .spawn c :: _ => some c
  | _ :: t => firstSpawn t

/-- `listStarts needle hay` : `needle` is a prefix of the character list
`hay` (char-by-char comparison). -/
def listStarts : List Char → List Char → Bool
  | [], _ => true
  | _ :: _, [] => false
  | a :: as, b :: bs => a == b && listStarts as bs

/-- `listContains needle hay` : `needle` occurs contiguously inside `hay`. -/
def listContains (needle : List Char) : List Char → Bool
  | [] => listStarts needle []
  | c :: t => listStarts needle (c :: t) || listContains needle t

/-- `strContains hay needle` embeds Python's substring test
`needle in hay`. -/
def strContains (hay needle : String) : Bool :=
  listContains needle.data hay.data

/-- The fixed list of transient-failure indicators of `run_git_command`
(source lines 225–231). -/
def transientIndicators : List String :=
  ["unable to access",
   "Couldn't connect to server",
   "RPC failed",
   "early EOF",
   "index-pack failed"]

/-- `any(err in e.stderr for err in [...])` — the captured stderr matches
one of the transient indicators. -/
def isTransient (stderr : String) : Bool :=
  transientIndicators.any fun e => strContains stderr e

/-- A git invocation outcome that is a `CalledProcessError` whose stderr
matches a transient indicator. -/
def failsTransient (r : AttemptResult) : Bool :=
  match r with
  | .err stderr => isTransient stderr
  | _ => false

/-- The loop body of `run_git_command` (source lines 206–239).  The Python
`for attempt in range(retries)` with `continue` is embedded as structural
recursion on `left`, the number of attempts still allowed; the running
attempt index `attempt` feeds the oracle, and the caller keeps the invariant
`left = retries - attempt`, under which Python's guard
`attempt < retries - 1` is exactly `0 < left'` (more than one attempt left).
Each attempt spawns the process once; a transient failure with attempts
remaining sleeps `delay` and doubles it (`time.sleep(delay); delay *= 2`). -/
def runGitAux (exec : Nat → AttemptResult) (cmd : List String)
    (delay attempt left : Nat) : (Bool × String) × List Ev :=
  match left with
  | 0 => ((false, "Max retries reached"), [])
  | left' + 1 =>
    match exec attempt with
    | .ok out => ((true, out), [.spawn cmd])
    | .err stderr =>
      if isTransient stderr then
        if 0 < left' then
          let r := runGitAux exec cmd (delay * 2) (attempt + 1) left'
          (r.1, .spawn cmd :: .wait delay :: r.2)
        else ((false, stderr), [.spawn cmd])
      else ((false, stderr), [.spawn cmd])
    | .exn msg => ((false, msg), [.spawn cmd])

/-- `run_git_command(command, retries, delay)` (source lines 204–240):
returns the Python pair `(bool, text)` together with the trace of spawns and
sleeps.  The fall-through `return False, "Max retries reached"` is reached
exactly when the loop runs zero iterations. -/
def run_git_command (exec : Nat → AttemptResult) (cmd : List String)
    (retries delay : Nat) : (Bool × String) × List Ev :=
  runGitAux exec cmd delay 0 retries

/-- Default retry budget of `run_git_command` (`retries=3`). -/
def defaultRetries : Nat := 3

/-- Default base delay of `run_git_command` (`delay=5`). -/
def defaultDelay : Nat := 5

/-- Python's `str.split('/')` on a character list: splitting on `'/'`,
keeping empty segments. -/
def splitOnSlash : List Char → List (List Char)
  | [] => [[]]
  | c :: rest =>
    let r := splitOnSlash rest
    if c == '/' then [] :: r
    else
      match r with
      | [] => [[c]]
      | h :: t => (c :: h) :: t

/-- `repo_url.split('/')[-1]` (source line 244): the last `/`-separated
segment of a string (`split` never yields an empty list, so `[-1]` is the
last element). -/
def lastSegment (s : String) : String :=
  ⟨(splitOnSlash s.data).getLastD []⟩

/-- `os.path.join(backup_dir, repo_name)` on a POSIX path with a plain
directory name. -/
def joinPath (a b : String) : String := a ++ "/" ++ b

/-- `repo_path = os.path.join(backup_dir, repo_url.split('/')[-1])`
(source lines 244–246): the LocalMirror path used by `backup_repository`. -/
def mirrorPath (backup_dir repo_url : String) : String :=
  joinPath backup_dir (lastSegment repo_url)

/-- `clone_command = ['git', 'clone', '--depth', '1', repo_url, repo_path]`
(source line 249), computed once and used both for the fresh clone and for
the re-clone after a failed update. -/
def clone_command (repo_url backup_dir : String) : List String :=
  ["git", "clone", "--depth", "1", repo_url, mirrorPath backup_dir repo_url]

/-- `['git', '-C', repo_path, 'pull']` (source line 255). -/
def pull_command (repo_url backup_dir : String) : List String :=
  ["git", "-C", mirrorPath backup_dir repo_url, "pull"]

/-- The filesystem and process environment one `backup_repository` call
observes: whether the LocalMirror path exists (`os.path.exists`), whether it
holds a valid version-control metadata directory (never consulted by the
source, which tests only path existence), whether `shutil.rmtree` would
raise, and the oracles for the pull and clone invocations. -/
structure World where
  pathExists : Bool
  hasGitDir : Bool
  rmtreeRaises : Bool
  pullExec : Nat → AttemptResult
  cloneExec : Nat → AttemptResult

/-- `shutil.rmtree(path, ignore_errors=...)`: `none` models a propagated
exception, which `ignore_errors=True` suppresses. -/
def rmtree (raises ignore_errors : Bool) : Option Unit :=
  if raises && !ignore_errors then none else some ()

/-- `backup_repository(repo_url, backup_dir)` (source lines 242–288),
returning the Python pair `(bool, detail)` and the event trace.  The branch
on `os.path.exists(repo_path)` selects pull (with recovery on failure:
best-effort `shutil.rmtree(repo_path, ignore_errors=True)` then a re-clone
with the same `clone_command`) or a fresh clone.  The `none` branch of
`rmtree` models the inner `except Exception as e: return False, str(e)`
handler; it is unreachable because the source passes `ignore_errors=True`. -/
def backup_repository (w : World) (repo_url backup_dir : String) :
    (Bool × String) × List Ev :=
  let repo_path := mirrorPath backup_dir repo_url
  if w.pathExists then
    let pr := run_git_command w.pullExec (pull_command repo_url backup_dir) 3 5
    if pr.1.1 then
      ((true, "Updated successfully"), pr.2)
    else
      match rmtree w.rmtreeRaises true with
      | none => ((false, "rmtree raised"), pr.2 ++ [Ev.rmtree repo_path])
      | some _ =>
        let cr := run_git_command w.cloneExec (clone_command repo_url backup_dir) 3 5
        if cr.1.1 then
          ((true, "Re-cloned successfully"), pr.2 ++ Ev.rmtree repo_path :: cr.2)
        else
          ((false, "Failed to re-clone: " ++ cr.1.2),
           pr.2 ++ Ev.rmtree repo_path :: cr.2)
  else
    let cr := run_git_command w.cloneExec (clone_command repo_url backup_dir) 3 5
    if cr.1.1 then ((true, "Cloned successfully"), cr.2)
    else ((false, "Failed to clone: " ++ cr.1.2), cr.2)

/-- One repository entry as produced by the discovery collaborator
(`{'name': ..., 'clone_url': ..., 'size': ...}`, source lines 139–143). -/
structure RepoDescriptor where
  name : String
  clone_url : String
  size : Nat
deriving DecidableEq, Repr

/-- The backup loop of `main` (source lines 326–331): for each descriptor,
`backup_repository(repo['clone_url'], backup_dir)`; successes collect the
name, failures collect `(name, message)`, in iteration order.  `world`
supplies the environment each per-repository call observes. -/
def processRepos (world : RepoDescriptor → World) (backup_dir : String) :
    List RepoDescriptor → List String × List (String × String)
  | [] => ([], [])
  | r :: rs =>
    let res := (backup_repository (world r) r.clone_url backup_dir).1
    let rest := processRepos world backup_dir rs
    if res.1 then (r.name :: rest.1, rest.2)
    else (rest.1, (r.name, res.2) :: rest.2)

/-- The persisted backup metadata (source lines 357–364): total attempted,
successful names, failed `(name, detail)` pairs, each in iteration order. -/
structure RunSummary where
  total : Nat
  successes : List String
  failures : List (String × String)
deriving DecidableEq, Repr

/-- The RunSummary `main` persists: `total_repos = len(repos)` and the two
accumulated lists. -/
def runSummary (world : RepoDescriptor → World) (backup_dir : String)
    (repos : List RepoDescriptor) : RunSummary :=
  let acc := processRepos world backup_dir repos
  { total := repos.length, successes := acc.1, failures := acc.2 }

/-- The twelve `git config --global` settings of `configure_git`
(source lines 176–192). -/
def git_configs : List (List String) :=
  [["http.postBuffer", "524288000"],
   ["core.compression", "0"],
   ["http.lowSpeedLimit", "1000"],
   ["http.lowSpeedTime", "60"],
   ["gc.auto", "0"],
   ["core.preloadIndex", "true"],
   ["protocol.version", "2"],
   ["core.packedGitLimit", "512m"],
   ["core.packedGitWindowSize", "512m"],
   ["pack.windowMemory", "512m"],
   ["pack.packSizeLimit", "512m"],
   ["pack.threads", "1"]]

/-- `configure_git()` (source lines 174–202) spawns one
`git config --global key value` process per setting, unconditionally,
before any repository is processed. -/
def configure_git_events : List Ev :=
  git_configs.map fun c => Ev.spawn (["git", "config", "--global"] ++ c)

/-- The proxy-configuration step of `main` (source lines 303–314): one
`git config --global protocol.proxy value` process per detected system
proxy whose protocol is `http` or `https`. -/
def proxy_config_events (proxies : List (String × String)) : List Ev :=
  (proxies.filter fun p => p.1 == "http" || p.1 == "https").map
    fun p => Ev.spawn ["git", "config", "--global", p.1 ++ ".proxy", p.2]

/-- The process-spawning events of the backup phase of `main`: the traces
of the per-repository `backup_repository` calls, concatenated in iteration
order. -/
def backupEvents (world : RepoDescriptor → World) (backup_dir : String)
    (repos : List RepoDescriptor) : List Ev :=
  (repos.map fun r => (backup_repository (world r) r.clone_url backup_dir).2).flatten

/-- `main()` (source lines 290–370): configure git, configure proxies,
run the backup loop over the descriptors obtained from discovery, and
persist the summary.  Returns the persisted RunSummary and the full event
trace of the run. -/
def mainRun (world : RepoDescriptor → World)
    (proxies : List (String × String)) (backup_dir : String)
    (repos : List RepoDescriptor) : RunSummary × List Ev :=
  (runSummary world backup_dir repos,
   configure_git_events ++ proxy_config_events proxies
     ++ backupEvents world backup_dir repos)

/-- An environment in which the mirror exists, the pull fails fatally, the
deletion would raise (and is suppressed), and the re-clone succeeds. -/
def recoveryWorld : World :=
  { pathExists := true, hasGitDir := true, rmtreeRaises := true,
    pullExec := fun _ => .err "fatal: bad object", cloneExec := fun _ => .ok "cloned" }

/-- An environment in which the mirror exists and both the pull and the
re-clone fail with fatal (non-transient) errors. -/
def bothFailWorld : World :=
  { pathExists := true, hasGitDir := true, rmtreeRaises := false,
    pullExec := fun _ => .err "PULL-DETAIL", cloneExec := fun _ => .err "CLONE-DETAIL" }

/-- An environment in which the mirror path exists but holds no valid
version-control metadata directory, and every git operation succeeds. -/
def existsNoGitWorld : World :=
  { pathExists := true, hasGitDir := false, rmtreeRaises := false,
    pullExec := fun _ => .ok "Already up to date.", cloneExec := fun _ => .ok "cloned" }

/-- An environment in which the mirror exists and the pull succeeds. -/
def updateOkWorld : World :=
  { pathExists := true, hasGitDir := true, rmtreeRaises := false,
    pullExec := fun _ => .ok "Already up to date.", cloneExec := fun _ => .exn "unused" }

/-- An environment in which the mirror is absent and the clone succeeds. -/
def absentWorld : World :=
  { pathExists := false, hasGitDir := false, rmtreeRaises := false,
    pullExec := fun _ => .exn "unused", cloneExec := fun _ => .ok "done" }

/-- A descriptor named `a` whose clone URL ends in `a.git`. -/
def descA : RepoDescriptor :=
  { name := "a", clone_url := "https://x/a.git", size := 0 }

/-- A descriptor with the same name as `descA` but a different clone URL. -/
def descSameName : RepoDescriptor :=
  { name := "a", clone_url := "https://y/z.git", size := 0 }

/-- A descriptor with the same clone URL as `descA` but a different name. -/
def descSameUrl : RepoDescriptor :=
  { name := "different", clone_url := "https://x/a.git", size := 1 }

theorem spawnCount_nil : spawnCount [] = 0 := rfl

theorem spawnCount_cons_spawn (c : List String) (evs : List Ev) :
    spawnCount (.spawn c :: evs) = spawnCount evs + 1 := by
  simp [spawnCount, List.countP_cons]

theorem spawnCount_cons_wait (d : Nat) (evs : List Ev) :
    spawnCount (.wait d :: evs) = spawnCount evs := by
  simp [spawnCount, List.countP_cons]

theorem spawnCount_cons_rmtree (p : String) (evs : List Ev) :
    spawnCount (.rmtree p :: evs) = spawnCount evs := by
  simp [spawnCount, List.countP_cons]

theorem spawnCount_append (a b : List Ev) :
    spawnCount (a ++ b) = spawnCount a + spawnCount b := by
  simp [spawnCount, List.countP_append]

theorem waitsOf_nil : waitsOf [] = [] := rfl

theorem waitsOf_cons_spawn (c : List String) (evs : List Ev) :
    waitsOf (.spawn c :: evs) = waitsOf evs := by
  simp [waitsOf, List.filterMap_cons]

theorem waitsOf_cons_wait (d : Nat) (evs : List Ev) :
    waitsOf (.wait d :: evs) = d :: waitsOf evs := by
  simp [waitsOf, List.filterMap_cons]

theorem hasRmtree_cons (e : Ev) (evs : List Ev) :
    hasRmtree (e :: evs)
      = ((match e with | .rmtree _ => true | _ => false) || hasRmtree evs) := by
  simp [hasRmtree, List.any_cons]

/-- If the loop is allowed at least one attempt, the trace opens with the
spawn of the command itself. -/
theorem runGitAux_head (exec : Nat → AttemptResult) (cmd : List String)
    (delay attempt left : Nat) (h : 1 ≤ left) :
    ∃ rest, (runGitAux exec cmd delay attempt left).2 = .spawn cmd :: rest := by
  cases left with
  | zero => omega
  | succ left' =>
    unfold runGitAux
    cases hexec : exec attempt with
    | ok out => exact ⟨_, rfl⟩
    | err stderr =>
      by_cases ht : isTransient stderr
      · by_cases hl : 0 < left'
        · simp only [ht, if_true, hl]
          exact ⟨_, rfl⟩
        · simp only [ht, if_true, hl, if_false]
          exact ⟨_, rfl⟩
      · simp only [ht, if_false]
        exact ⟨_, rfl⟩
    | exn msg => exact ⟨_, rfl⟩

/-- The retry loop never deletes a directory. -/
theorem runGitAux_no_rmtree (exec : Nat → AttemptResult) (cmd : List String) :
    ∀ left attempt delay,
      hasRmtree (runGitAux exec cmd delay attempt left).2 = false := by
  intro left
  induction left with
  | zero => intro attempt delay; rfl
  | succ left' ih =>
    intro attempt delay
    unfold runGitAux
    cases hexec : exec attempt with
    | ok out => rfl
    | err stderr =>
      by_cases ht : isTransient stderr
      · by_cases hl : 0 < left'
        · simp only [ht, if_true, hl]
          simp [hasRmtree_cons, ih (attempt + 1) (delay * 2)]
        · simp only [ht, if_true, hl, if_false]
          rfl
      · simp only [ht, if_false]
        rfl
    | exn msg => rfl

/-- Behaviour of the retry loop when every attempt in its window fails with
a transient error: all `left` attempts are spent, the sleeps double from
`delay`, and the loop reports failure. -/
theorem runGitAux_all_transient (exec : Nat → AttemptResult) (cmd : List String) :
    ∀ left attempt delay, 1 ≤ left →
      (∀ k, attempt ≤ k → k < attempt + left → failsTransient (exec k) = true) →
      (runGitAux exec cmd delay attempt left).1.1 = false ∧
      spawnCount (runGitAux exec cmd delay attempt left).2 = left ∧
      waitsOf (runGitAux exec cmd delay attempt left).2
        = (List.range (left - 1)).map (fun k => delay * 2 ^ k) := by
  intro left
  induction left with
  | zero => intro attempt delay h; omega
  | succ left' ih =>
    intro attempt delay _ htr
    have hx : failsTransient (exec attempt) = true :=
      htr attempt (Nat.le_refl _) (by omega)
    cases hexec : exec attempt with
    | ok out => rw [hexec] at hx; simp [failsTransient] at hx
    | exn msg => rw [hexec] at hx; simp [failsTransient] at hx
    | err stderr =>
      rw [hexec] at hx
      have ht : isTransient stderr = true := hx
      cases left' with
      | zero =>
        unfold runGitAux
        simp [hexec, ht, spawnCount_cons_spawn, waitsOf_cons_spawn,
          spawnCount_nil, waitsOf_nil]
      | succ l =>
        have hrec := ih (attempt + 1) (delay * 2) (by omega)
          (fun k hk1 hk2 => htr k (by omega) (by omega))
        unfold runGitAux
        simp only [hexec, ht, if_true, Nat.succ_pos, if_pos]
        refine ⟨hrec.1, ?_, ?_⟩
        · rw [spawnCount_cons_spawn, spawnCount_cons_wait, hrec.2.1]
        · rw [waitsOf_cons_spawn, waitsOf_cons_wait, hrec.2.2]
          have hfun : ((fun k => delay * 2 ^ k) ∘ Nat.succ)
              = (fun k => delay * 2 * 2 ^ k) := by
            funext k
            simp [Function.comp, pow_succ]
            ring
          rw [Nat.succ_sub_one, Nat.succ_sub_one, List.range_succ_eq_map,
            List.map_cons, List.map_map, hfun]
          simp

/-- Claim C1: if every attempt fails with a transient error, the retry
wrapper performs exactly `retries` attempts, sleeping
`delay, 2*delay, 4*delay, …` (`delay * 2^(k-1)` before the `(k+1)`-th
attempt) between consecutive attempts, and returns a failure outcome. -/
theorem run_git_command_persistent_transient
    (exec : Nat → AttemptResult) (cmd : List String) (retries delay : Nat)
    (hr : 1 ≤ retries)
    (htr : ∀ k, k < retries → failsTransient (exec k) = true) :
    (run_git_command exec cmd retries delay).1.1 = false ∧
    spawnCount (run_git_command exec cmd retries delay).2 = retries ∧
    waitsOf (run_git_command exec cmd retries delay).2
      = (List.range (retries - 1)).map (fun k => delay * 2 ^ k) :=
  runGitAux_all_transient exec cmd retries 0 delay hr
    (fun k _ hk2 => htr k (by omega))

/-- Witness for C1 at the default policy (`retries=3`, `delay=5`): three
attempts with sleeps `5, 10, 20`. -/
theorem run_git_command_persistent_transient_witness :
    (run_git_command (fun _ => .err "early EOF") ["git", "clone"]
        defaultRetries defaultDelay).1.1 = false ∧
    spawnCount (run_git_command (fun _ => .err "early EOF") ["git", "clone"]
        defaultRetries defaultDelay).2 = defaultRetries ∧
    waitsOf (run_git_command (fun _ => .err "early EOF") ["git", "clone"]
        defaultRetries defaultDelay).2
      = (List.range (defaultRetries - 1)).map (fun k => defaultDelay * 2 ^ k) :=
  run_git_command_persistent_transient (fun _ => .err "early EOF")
    ["git", "clone"] defaultRetries defaultDelay (by decide)
    (fun k _ => by
      show failsTransient (AttemptResult.err "early EOF") = true
      decide)

/-- Claim C2: a failed git invocation is retried exactly when its captured
stderr matches a transient indicator; a non-matching failure is returned as
`(False, stderr)` immediately after the first attempt, with no further
attempt and no backoff sleep. -/
theorem run_git_command_transient_iff_retry
    (exec : Nat → AttemptResult) (cmd : List String) (retries delay : Nat)
    (s : String) (hr : 1 ≤ retries) (h0 : exec 0 = .err s) :
    (isTransient s = false →
      run_git_command exec cmd retries delay = ((false, s), [.spawn cmd])) ∧
    (2 ≤ retries →
      (isTransient s = true ↔
        2 ≤ spawnCount (run_git_command exec cmd retries delay).2)) := by
  obtain ⟨r, rfl⟩ : ∃ r, retries = r + 1 := ⟨retries - 1, by omega⟩
  constructor
  · intro hft
    show runGitAux exec cmd delay 0 (r + 1) = ((false, s), [.spawn cmd])
    unfold runGitAux
    simp [h0, hft]
  · intro h2
    obtain ⟨r', rfl⟩ : ∃ t, r = t + 1 := ⟨r - 1, by omega⟩
    show isTransient s = true ↔
      2 ≤ spawnCount (runGitAux exec cmd delay 0 (r' + 1 + 1)).2
    cases ht : isTransient s with
    | true =>
      simp only [true_iff]
      unfold runGitAux
      simp only [h0, ht, if_true, Nat.succ_pos, if_pos]
      obtain ⟨rest, hrest⟩ :=
        runGitAux_head exec cmd (delay * 2) (0 + 1) (r' + 1) (by omega)
      rw [spawnCount_cons_spawn, spawnCount_cons_wait, hrest,
        spawnCount_cons_spawn]
      omega
    | false =>
      unfold runGitAux
      simp [h0, ht, spawnCount_cons_spawn, spawnCount_nil]

/-- Witness for C2: a fatal failure (`fatal: Authentication failed`) is
returned after a single attempt with an empty backoff trace. -/
theorem run_git_command_transient_iff_retry_witness :
    run_git_command (fun _ => .err "fatal: Authentication failed")
        ["git", "pull"] 3 5
      = ((false, "fatal: Authentication failed"), [.spawn ["git", "pull"]]) := by
  have h := run_git_command_transient_iff_retry
    (fun _ => .err "fatal: Authentication failed") ["git", "pull"] 3 5
    "fatal: Authentication failed" (by decide) rfl
  exact h.1 (by decide)

/-- `backup_repository` behaves identically whether or not directory
deletion would raise: `shutil.rmtree` is invoked with
`ignore_errors=True`. -/
theorem backup_repository_rmtree_independent (w : World) (b : Bool)
    (url dir : String) :
    backup_repository { w with rmtreeRaises := b } url dir
      = backup_repository w url dir := by
  unfold backup_repository
  simp [rmtree]

/-- Claim C3: when the mirror exists and the pull fails, the mirror is
forcibly deleted (deletion errors suppressed: the outcome does not depend
on whether deletion raises) and the same `clone_command` as the absent
case is run; if that clone succeeds the result is
`(True, "Re-cloned successfully")`. -/
theorem backup_repository_recovery (w : World) (url dir : String)
    (hex : w.pathExists = true)
    (hpull : (run_git_command w.pullExec (pull_command url dir) 3 5).1.1 = false)
    (hclone : (run_git_command w.cloneExec (clone_command url dir) 3 5).1.1 = true) :
    backup_repository w url dir
      = ((true, "Re-cloned successfully"),
         (run_git_command w.pullExec (pull_command url dir) 3 5).2
           ++ Ev.rmtree (mirrorPath dir url)
             :: (run_git_command w.cloneExec (clone_command url dir) 3 5).2)
    ∧ (∀ b, backup_repository { w with rmtreeRaises := b } url dir
        = backup_repository w url dir) := by
  constructor
  · unfold backup_repository
    rw [hex]
    simp [hpull, hclone, rmtree]
  · intro b
    exact backup_repository_rmtree_independent w b url dir

/-- Witness for C3: in `recoveryWorld` (pull fails fatally, deletion would
raise, re-clone succeeds) the result is `(True, "Re-cloned successfully")`
with the deletion event between the pull and clone traces, and suppressing
the deletion error changes nothing. -/
theorem backup_repository_recovery_witness :
    backup_repository recoveryWorld "https://x/a.git" "b"
      = ((true, "Re-cloned successfully"),
         (run_git_command recoveryWorld.pullExec
             (pull_command "https://x/a.git" "b") 3 5).2
           ++ Ev.rmtree (mirrorPath "b" "https://x/a.git")
             :: (run_git_command recoveryWorld.cloneExec
                  (clone_command "https://x/a.git" "b") 3 5).2)
    ∧ backup_repository { recoveryWorld with rmtreeRaises := false }
          "https://x/a.git" "b"
        = backup_repository recoveryWorld "https://x/a.git" "b" := by
  have h := backup_repository_recovery recoveryWorld "https://x/a.git" "b"
    rfl (by decide) (by decide)
  exact ⟨h.1, h.2 false⟩

/-- Counterexample to C4: when both the pull and the re-clone fail, the
returned detail is `"Failed to re-clone: "` followed by the re-clone's
failure text only — it does not contain the update operation's failure
text. -/
theorem reclone_detail_lacks_update_detail :
    (backup_repository bothFailWorld "https://x/a.git" "b").1
        = (false, "Failed to re-clone: CLONE-DETAIL")
    ∧ (run_git_command bothFailWorld.pullExec
          (pull_command "https://x/a.git" "b") 3 5).1
        = (false, "PULL-DETAIL")
    ∧ strContains (backup_repository bothFailWorld "https://x/a.git" "b").1.2
        "PULL-DETAIL" = false := by decide

/-- Claim C4, amended: if the update fails and the re-clone also fails, the
result is a failure whose detail is `"Failed to re-clone: "` followed by
the re-clone's failure detail; the update's own failure detail is not part
of it. -/
theorem backup_repository_reclone_failure (w : World) (url dir : String)
    (hex : w.pathExists = true)
    (hpull : (run_git_command w.pullExec (pull_command url dir) 3 5).1.1 = false)
    (hclone : (run_git_command w.cloneExec (clone_command url dir) 3 5).1.1 = false) :
    (backup_repository w url dir).1
      = (false, "Failed to re-clone: "
          ++ (run_git_command w.cloneExec (clone_command url dir) 3 5).1.2) := by
  unfold backup_repository
  rw [hex]
  simp [hpull, hclone, rmtree]

/-- Witness for the amended C4 in `bothFailWorld`. -/
theorem backup_repository_reclone_failure_witness :
    (backup_repository bothFailWorld "https://x/a.git" "b").1
      = (false, "Failed to re-clone: "
          ++ (run_git_command bothFailWorld.cloneExec
               (clone_command "https://x/a.git" "b") 3 5).1.2) :=
  backup_repository_reclone_failure bothFailWorld "https://x/a.git" "b"
    rfl (by decide) (by decide)

/-- Counterexample to C5: a mirror path that exists but contains no valid
version-control metadata directory still takes the update (pull) path — the
first spawned process is the pull, and the result is
`(True, "Updated successfully")` — whereas the claim requires the clone
path there. -/
theorem update_path_taken_without_metadata :
    existsNoGitWorld.pathExists = true
    ∧ existsNoGitWorld.hasGitDir = false
    ∧ firstSpawn (backup_repository existsNoGitWorld "https://x/a.git" "b").2
        = some (pull_command "https://x/a.git" "b")
    ∧ (backup_repository existsNoGitWorld "https://x/a.git" "b").1
        = (true, "Updated successfully")
    ∧ pull_command "https://x/a.git" "b" ≠ clone_command "https://x/a.git" "b" := by
  decide

/-- Claim C5, amended: the choice between the update path and the clone
path is made solely on whether the LocalMirror path exists
(`os.path.exists`); the presence of a version-control metadata directory
inside it is not consulted.  The first process spawned is the pull command
exactly when the path exists, and the clone command exactly otherwise. -/
theorem backup_repository_branch_on_existence (w : World) (url dir : String) :
    firstSpawn (backup_repository w url dir).2
      = some (if w.pathExists then pull_command url dir
              else clone_command url dir) := by
  cases hex : w.pathExists with
  | false =>
    unfold backup_repository
    rw [hex]
    obtain ⟨rest, hrest⟩ :=
      runGitAux_head w.cloneExec (clone_command url dir) 5 0 3 (by omega)
    cases hcr : (run_git_command w.cloneExec (clone_command url dir) 3 5).1.1 with
    | false =>
      simp only [if_false, hcr, Bool.false_eq_true]
      rw [show (run_git_command w.cloneExec (clone_command url dir) 3 5).2
          = Ev.spawn (clone_command url dir) :: rest from hrest]
      rfl
    | true =>
      simp only [if_false, hcr, if_true]
      rw [show (run_git_command w.cloneExec (clone_command url dir) 3 5).2
          = Ev.spawn (clone_command url dir) :: rest from hrest]
      rfl
  | true =>
    unfold backup_repository
    rw [hex]
    obtain ⟨rest, hrest⟩ :=
      runGitAux_head w.pullExec (pull_command url dir) 5 0 3 (by omega)
    have hpull2 : (run_git_command w.pullExec (pull_command url dir) 3 5).2
        = Ev.spawn (pull_command url dir) :: rest := hrest
    cases hpr : (run_git_command w.pullExec (pull_command url dir) 3 5).1.1 with
    | true =>
      simp only [if_true, hpr]
      rw [hpull2]
      rfl
    | false =>
      simp only [hpr, Bool.false_eq_true, if_false, rmtree, Bool.and_false,
        Bool.not_true]
      cases hcr : (run_git_command w.cloneExec (clone_command url dir) 3 5).1.1 with
      | true =>
        simp only [hcr, if_true]
        rw [hpull2]
        rfl
      | false =>
        simp only [hcr, Bool.false_eq_true, if_false]
        rw [hpull2]
        rfl

/-- Claim C6: when the mirror exists and the pull succeeds, the result is
`(True, "Updated successfully")`, the trace is exactly the pull's trace,
and no directory deletion occurs. -/
theorem backup_repository_update_success (w : World) (url dir : String)
    (hex : w.pathExists = true)
    (hpull : (run_git_command w.pullExec (pull_command url dir) 3 5).1.1 = true) :
    backup_repository w url dir
      = ((true, "Updated successfully"),
         (run_git_command w.pullExec (pull_command url dir) 3 5).2)
    ∧ hasRmtree (backup_repository w url dir).2 = false := by
  have h1 : backup_repository w url dir
      = ((true, "Updated successfully"),
         (run_git_command w.pullExec (pull_command url dir) 3 5).2) := by
    unfold backup_repository
    rw [hex]
    simp [hpull]
  refine ⟨h1, ?_⟩
  rw [h1]
  exact runGitAux_no_rmtree w.pullExec (pull_command url dir) 3 0 5

/-- Witness for C6 in `updateOkWorld`. -/
theorem backup_repository_update_success_witness :
    backup_repository updateOkWorld "https://x/a.git" "b"
      = ((true, "Updated successfully"),
         (run_git_command updateOkWorld.pullExec
           (pull_command "https://x/a.git" "b") 3 5).2)
    ∧ hasRmtree (backup_repository updateOkWorld "https://x/a.git" "b").2
        = false :=
  backup_repository_update_success updateOkWorld "https://x/a.git" "b"
    rfl (by decide)

/-- Claim C7: when the mirror is absent, one shallow depth-1 clone command
is issued through the retry wrapper; success yields
`(True, "Cloned successfully")` and failure yields a failure outcome whose
detail is `"Failed to clone: "` followed by the propagated failure
detail. -/
theorem backup_repository_clone_when_absent (w : World) (url dir : String)
    (hex : w.pathExists = false) :
    backup_repository w url dir
      = (((run_git_command w.cloneExec (clone_command url dir) 3 5).1.1,
          if (run_git_command w.cloneExec (clone_command url dir) 3 5).1.1
          then "Cloned successfully"
          else "Failed to clone: "
            ++ (run_git_command w.cloneExec (clone_command url dir) 3 5).1.2),
         (run_git_command w.cloneExec (clone_command url dir) 3 5).2)
    ∧ clone_command url dir
        = ["git", "clone", "--depth", "1", url, mirrorPath dir url] := by
  constructor
  · unfold backup_repository
    rw [hex]
    cases hcr : (run_git_command w.cloneExec (clone_command url dir) 3 5).1.1 with
    | true => simp [hcr]
    | false => simp [hcr]
  · rfl

/-- Witness for C7 in `absentWorld` (clone succeeds). -/
theorem backup_repository_clone_when_absent_witness :
    backup_repository absentWorld "https://x/a.git" "b"
      = (((run_git_command absentWorld.cloneExec
            (clone_command "https://x/a.git" "b") 3 5).1.1,
          if (run_git_command absentWorld.cloneExec
               (clone_command "https://x/a.git" "b") 3 5).1.1
          then "Cloned successfully"
          else "Failed to clone: "
            ++ (run_git_command absentWorld.cloneExec
                 (clone_command "https://x/a.git" "b") 3 5).1.2),
         (run_git_command absentWorld.cloneExec
           (clone_command "https://x/a.git" "b") 3 5).2)
    ∧ clone_command "https://x/a.git" "b"
        = ["git", "clone", "--depth", "1", "https://x/a.git",
           mirrorPath "b" "https://x/a.git"] :=
  backup_repository_clone_when_absent absentWorld "https://x/a.git" "b" rfl

/-- Whether the backup of one descriptor succeeds in a given environment. -/
def repoSucceeded (world : RepoDescriptor → World) (backup_dir : String)
    (r : RepoDescriptor) : Bool :=
  (backup_repository (world r) r.clone_url backup_dir).1.1

/-- The failure detail recorded for one descriptor. -/
def repoDetail (world : RepoDescriptor → World) (backup_dir : String)
    (r : RepoDescriptor) : String :=
  (backup_repository (world r) r.clone_url backup_dir).1.2

/-- The backup loop is the evident partition fold: successes are the names
of the succeeding descriptors in order, failures the `(name, detail)` pairs
of the failing ones in order. -/
theorem processRepos_eq (world : RepoDescriptor → World) (dir : String) :
    ∀ repos : List RepoDescriptor,
      processRepos world dir repos
        = ((repos.filter (repoSucceeded world dir)).map RepoDescriptor.name,
           (repos.filter fun r => !(repoSucceeded world dir r)).map
             fun r => (r.name, repoDetail world dir r)) := by
  intro repos
  induction repos with
  | nil => rfl
  | cons r rs ih =>
    simp only [processRepos, List.filter_cons, ih]
    cases hr : repoSucceeded world dir r with
    | true =>
      simp only [repoSucceeded] at hr
      simp [hr, repoSucceeded]
    | false =>
      simp only [repoSucceeded] at hr
      simp [hr, repoSucceeded, repoDetail]

/-- Filtering a list by a predicate and by its negation splits its length. -/
theorem length_filter_partition {α : Type} (p : α → Bool) :
    ∀ l : List α,
      (l.filter p).length + (l.filter fun a => !(p a)).length = l.length := by
  intro l
  induction l with
  | nil => rfl
  | cons a t ih =>
    simp only [List.filter_cons]
    cases hp : p a <;> simp [hp] <;> omega

/-- Claim C8: the persisted summary satisfies
`total = len(successes) + len(failures) = number of descriptors`, and the
successes and failures are exactly the names/details of the succeeding and
failing descriptors respectively, each recorded once, in iteration order
(a disjoint and exhaustive partition of the attempted descriptors). -/
theorem run_summary_partition (world : RepoDescriptor → World) (dir : String)
    (repos : List RepoDescriptor) :
    (runSummary world dir repos).total = repos.length
    ∧ (runSummary world dir repos).total
        = (runSummary world dir repos).successes.length
          + (runSummary world dir repos).failures.length
    ∧ (runSummary world dir repos).successes
        = (repos.filter (repoSucceeded world dir)).map RepoDescriptor.name
    ∧ (runSummary world dir repos).failures
        = (repos.filter fun r => !(repoSucceeded world dir r)).map
            fun r => (r.name, repoDetail world dir r) := by
  have hp := processRepos_eq world dir repos
  refine ⟨rfl, ?_, ?_, ?_⟩
  · show repos.length = (processRepos world dir repos).1.length
      + (processRepos world dir repos).2.length
    rw [hp]
    simp only [List.length_map]
    exact (length_filter_partition (repoSucceeded world dir) repos).symm
  · show (processRepos world dir repos).1 = _
    rw [hp]
  · show (processRepos world dir repos).2 = _
    rw [hp]

/-- Counterexample to C9: a run over an empty descriptor list does produce
and persist the empty summary, but it is not true that no process is
spawned — the unconditional `configure_git()` step spawns twelve
`git config --global` processes before the descriptor list is even
consulted. -/
theorem empty_run_spawns_config_processes :
    (mainRun (fun _ => absentWorld) [] "backups" []).1
        = { total := 0, successes := [], failures := [] }
    ∧ spawnCount (mainRun (fun _ => absentWorld) [] "backups" []).2 = 12
    ∧ spawnCount (mainRun (fun _ => absentWorld) [] "backups" []).2 ≠ 0 := by
  decide

/-- Claim C9, amended: an empty descriptor list yields (and persists) the
summary `{total: 0, successes: [], failures: []}`, without being an error,
and the backup phase spawns no process — the only processes of such a run
are the unconditional git-configuration ones. -/
theorem empty_run_summary_no_backup_process (world : RepoDescriptor → World)
    (proxies : List (String × String)) (dir : String) :
    (mainRun world proxies dir []).1
        = { total := 0, successes := [], failures := [] }
    ∧ backupEvents world dir [] = []
    ∧ (mainRun world proxies dir []).2
        = configure_git_events ++ proxy_config_events proxies := by
  refine ⟨rfl, rfl, ?_⟩
  simp [mainRun, backupEvents]

/-- Counterexample to C10: the LocalMirror path is derived from the clone
URL, not from the descriptor's name: two descriptors with the same name but
different URLs get different paths, and the directory component (`a.git`)
differs from the name (`a`). -/
theorem mirror_path_not_from_name :
    descA.name = descSameName.name
    ∧ mirrorPath "backups" descA.clone_url
        ≠ mirrorPath "backups" descSameName.clone_url
    ∧ lastSegment descA.clone_url ≠ descA.name := by decide

/-- Claim C10, amended: the LocalMirror path is named deterministically
from the descriptor's clone URL: it is the backup directory joined with the
URL's final `/`-separated segment, two descriptors with the same clone URL
map to the same path, and `backup_repository` behaves identically for
them. -/
theorem mirror_path_from_clone_url (w : World) (d1 d2 : RepoDescriptor)
    (dir : String) (h : d1.clone_url = d2.clone_url) :
    mirrorPath dir d1.clone_url = mirrorPath dir d2.clone_url
    ∧ mirrorPath dir d1.clone_url = joinPath dir (lastSegment d1.clone_url)
    ∧ backup_repository w d1.clone_url dir
        = backup_repository w d2.clone_url dir := by
  rw [h]
  exact ⟨rfl, rfl, rfl⟩

/-- Witness for the amended C10: `descA` and `descSameUrl` share a clone
URL (but not a name) and get the same mirror path and behaviour. -/
theorem mirror_path_from_clone_url_witness :
    mirrorPath "backups" descA.clone_url
        = mirrorPath "backups" descSameUrl.clone_url
    ∧ mirrorPath "backups" descA.clone_url
        = joinPath "backups" (lastSegment descA.clone_url)
    ∧ backup_repository absentWorld descA.clone_url "backups"
        = backup_repository absentWorld descSameUrl.clone_url "backups" :=
  mirror_path_from_clone_url absentWorld descA descSameUrl "backups" rfl
